/-
A verification development for the task-pipeline backend
(FastAPI intake → asyncio queue → worker loop → task processor →
static-site generation → GitHub publish → backoff notifier).

Each Python function of the repository that the claims touch is shallowly
embedded as an executable Lean definition: the file system is tracked as an
explicit folder state, network calls become oracle functions supplied as
arguments (one response per successive call), and Python exceptions become
`Except String` values.  Definitions are transcribed from the source files
`core/worker.py`, `core/models.py`, `services/file_utils.py`,
`services/notifier.py`, `services/github_service.py` and
`services/html_generator.py`.
-/
import Mathlib

set_option autoImplicit false

namespace Spec2Proof

/-! ## Generic string helpers

Executable stand-ins for the Python string/regex operations used by the
source (`in`, `str.count`, `re.search`, `str.strip`, ...).  They work on
`List Char` so that all recursion is structural. -/

/-- Tail-recursive worker for `splitFirst`: `acc` holds the characters
scanned so far, in reverse. -/
def splitFirstGo (pat : List Char) : List Char → List Char → Option (List Char × List Char)
  | acc, [] => if pat = [] then some (acc.reverse, []) else Option.none
  | acc, c :: cs =>
    if pat.isPrefixOf (c :: cs) then some (acc.reverse, (c :: cs).drop pat.length)
    else splitFirstGo pat (c :: acc) cs

/-- Splits a character list at the first occurrence of `pat`, returning the
part before the occurrence and the part after it (the occurrence itself is
dropped).  Returns `Option.none` when `pat` does not occur.  This is the
search primitive behind the Python `in` operator and the literal parts of
the `re.search` calls in the source. -/
def splitFirst (pat : List Char) (cs : List Char) : Option (List Char × List Char) :=
  splitFirstGo pat [] cs

/-- Python `pat in s` (substring containment). -/
def strContains (s pat : String) : Bool :=
  (splitFirst pat.toList s.toList).isSome

/-- ASCII lower-casing of a character list (Python `str.lower` /
`re.IGNORECASE`; the strings this program handles are ASCII). -/
def lowerList (cs : List Char) : List Char :=
  cs.map Char.toLower

/-- Case-insensitive substring search, modelling `re.search(..., re.IGNORECASE)`
for a pattern with no metacharacters. -/
def containsCI (s pat : String) : Bool :=
  (splitFirst (lowerList pat.toList) (lowerList s.toList)).isSome

/-- Python `s.strip()`: leading and trailing whitespace removed. -/
def pyStrip (s : String) : String :=
  String.mk (((s.toList.dropWhile Char.isWhitespace).reverse.dropWhile
    Char.isWhitespace).reverse)

/-- Python `s[:n]` character slicing. -/
def pyTake (s : String) (n : Nat) : String :=
  String.mk (s.toList.take n)

/-- Occurrence count of `pat`; agrees with Python `str.count` for patterns
without self-overlap (the source only counts `"style"`, which has none). -/
def countSub (pat : List Char) : List Char → Nat
  | [] => 0
  | c :: cs => (if pat.isPrefixOf (c :: cs) then 1 else 0) + countSub pat cs

/-- Number of newline characters in a character list (Python
`len(re.findall(r"\n", s))`). -/
def countNewlines (cs : List Char) : Nat :=
  (cs.filter (fun c => c = '\n')).length

/-! ## Data model — `core/models.py` -/

/-- `Attachment` pydantic model: `name` and `url`. -/
structure Attachment where
  name : String
  url : String
deriving Repr, DecidableEq

/-- `TaskRequest` pydantic model: the nine declared fields.  `brief` is
`Optional[str] = None`; `checks` and `attachments` default to `[]`. -/
structure TaskRequest where
  email : String
  secret : String
  task : String
  round : Int
  nonce : String
  brief : Option String
  checks : List String
  evaluation_url : String
  attachments : List Attachment
deriving Repr, DecidableEq

/-! ## Attachment decoding — `services/file_utils.py` -/

/-- Splits a character list at its first `';'`; `Option.none` when there is
no `';'`.  Used to read the `[^;]+` mime group of `DATA_URI_RE`. -/
def splitAtSemi : List Char → Option (List Char × List Char)
  | [] => Option.none
  | c :: cs =>
    if c = ';' then some ([], cs)
    else
      match splitAtSemi cs with
      | some (a, b) => some (c :: a, b)
      | Option.none => Option.none

/-- The match of `DATA_URI_RE = re.compile(r"^data:(?P<mime>[^;]+);base64,(?P<data>.+)$")`:
returns the `data` group when the url is a base64 data URI, `Option.none`
otherwise.  (The `.`-does-not-match-newline subtlety of the Python regex is
not modelled; no claim depends on newlines inside a url.) -/
def dataUriPayload (url : String) : Option String :=
  if "data:".toList.isPrefixOf url.toList then
    match splitAtSemi (url.toList.drop 5) with
    | some (mime, rest) =>
      if mime ≠ [] ∧ "base64,".toList.isPrefixOf rest then
        let data := rest.drop 7
        if data ≠ [] then some (String.mk data) else Option.none
      else Option.none
    | Option.none => Option.none
  else Option.none

/-- Value of a base64 alphabet character, `Option.none` for anything else
(including the `'='` pad). -/
def b64CharVal (c : Char) : Option Nat :=
  if 'A' ≤ c ∧ c ≤ 'Z' then some (c.toNat - 65)
  else if 'a' ≤ c ∧ c ≤ 'z' then some (c.toNat - 97 + 26)
  else if '0' ≤ c ∧ c ≤ '9' then some (c.toNat - 48 + 52)
  else if c = '+' then some 62
  else if c = '/' then some 63
  else Option.none

/-- Decodes successive 4-character base64 groups to bytes, honouring `'='`
padding in the final group. -/
def b64DecodeChunks : List Char → List Nat
  | a :: b :: c :: d :: rest =>
    (match b64CharVal a, b64CharVal b with
     | some va, some vb =>
       let n1 := va * 4 + vb / 16
       if c = '=' then [n1]
       else
         match b64CharVal c with
         | some vc =>
           let n2 := (vb % 16) * 16 + vc / 4
           if d = '=' then [n1, n2]
           else
             match b64CharVal d with
             | some vd => [n1, n2, (vc % 4) * 64 + vd]
             | Option.none => []
         | Option.none => []
     | _, _ => []) ++ b64DecodeChunks rest
  | _ => []

/-- Python `base64.b64decode` (default `validate=False`): characters outside
the alphabet/padding are discarded, and `binascii.Error` is raised — here
`Option.none` — when the number of remaining characters is not a multiple
of 4 (the "incorrect padding" error).  Non-canonical mid-string padding is
not modelled; no claim input uses it. -/
def b64decode (s : String) : Option (List Nat) :=
  let cs := s.toList.filter (fun c => (b64CharVal c).isSome || c = '=')
  if cs.length % 4 = 0 then some (b64DecodeChunks cs) else Option.none

/-- `decode_attachments(attachments, folder, client)` from
`services/file_utils.py`.  The network is the oracle
`fetch : url → Except ...` (modelling `client.get` + `raise_for_status`:
`Except.error` is a transport error or a non-2xx status).  Per the source:
a data-URI attachment is decoded with `base64.b64decode` *outside* any
`try` — a decode failure raises out of the whole call — while a remote
fetch failure is caught by `except Exception: continue` and the attachment
is skipped.  File writes are modelled as infallible; the returned list is
`files`, the names appended after each successful resolution. -/
def decode_attachments (fetch : String → Except String (List Nat)) :
    List Attachment → Except String (List String)
  | [] => Except.ok []
  | a :: rest =>
    match dataUriPayload a.url with
    | some data =>
      match b64decode data with
      | some _bytes =>
        (decode_attachments fetch rest).map (fun names => a.name :: names)
      | Option.none => Except.error "binascii.Error: Invalid base64-encoded string"
    | Option.none =>
      match fetch a.url with
      | Except.ok _content =>
        (decode_attachments fetch rest).map (fun names => a.name :: names)
      | Except.error _ => decode_attachments fetch rest

/-- An attachment whose data URI (if it is one) decodes successfully. -/
def dataUriOk (a : Attachment) : Bool :=
  match dataUriPayload a.url with
  | some d => (b64decode d).isSome
  | Option.none => true

/-- Whether an attachment ends up in the returned `files` list: data URIs
always do (when they decode), remote urls only when the fetch succeeds. -/
def attachmentKept (fetch : String → Except String (List Nat)) (a : Attachment) : Bool :=
  match dataUriPayload a.url with
  | some _ => true
  | Option.none =>
    match fetch a.url with
    | Except.ok _ => true
    | Except.error _ => false

/-! ## Backoff notifier — `services/notifier.py` -/

/-- Outcome of one `client.post` call as observed by the notifier: an HTTP
response with a status code, or a raised transport exception. -/
inductive PostResult where
  | ok (status : Nat)
  | exn (msg : String)
deriving Repr, DecidableEq

/-- The notifier's success test `r.status_code == 200`; an exception is
never a success (the `except` branch falls through to the retry). -/
def isOk200 : PostResult → Bool
  | PostResult.ok s => s == 200
  | PostResult.exn _ => false

/-- `delay = min(delay * 2, 16)`. -/
def nextDelay (d : Nat) : Nat := min (d * 2) 16

/-- The retry loop of `post_with_backoff`: `attempt` is the index of the
next POST (the oracle `responses` gives the outcome of the `k`-th POST),
the second argument is the number of loop iterations left, the third the
current `delay`.  Returns the number of POSTs made and the list of
`asyncio.sleep` durations performed, in order.  A 200 response returns
immediately; otherwise the loop sleeps `delay` (also after the final
attempt, as in the source) and doubles the delay with the 16 cap. -/
def backoffRun (responses : Nat → PostResult) : Nat → Nat → Nat → Nat × List Nat
  | _attempt, 0, _delay => (0, [])
  | attempt, n + 1, delay =>
    if isOk200 (responses attempt) then (1, [])
    else
      let r := backoffRun responses (attempt + 1) n (nextDelay delay)
      (r.1 + 1, delay :: r.2)

/-- `post_with_backoff(url, payload, client, max_attempts)`: `delay` starts
at 1 and the loop runs `range(max_attempts)`.  The function catches every
POST exception and never raises, so the embedding is total: it returns the
POST count and the sleep schedule. -/
def post_with_backoff (responses : Nat → PostResult) (max_attempts : Nat) : Nat × List Nat :=
  backoffRun responses 0 max_attempts 1

/-- The sleep schedule produced from an initial delay when every attempt
fails: `d, min(2d,16), min(4d,16), ...`. -/
def sleepSeq : Nat → Nat → List Nat
  | 0, _ => []
  | n + 1, d => d :: sleepSeq n (nextDelay d)

/-! ## Pages liveness poller — `services/github_service.py`, step 7 -/

/-- Outcome of one `client.get(pages_url, timeout=10)` call. -/
inductive GetResult where
  | ok (status : Nat)
  | exn (msg : String)
deriving Repr, DecidableEq

/-- The poller's success test `resp.status_code == 200`; a raised exception
is handled by the `except` branch and counts as a failed poll. -/
def isLive : GetResult → Bool
  | GetResult.ok s => s == 200
  | GetResult.exn _ => false

/-- Result of the `for attempt in range(12)` poll loop: how many GET polls
were made, the `asyncio.sleep` durations performed inside the loop, and
whether the loop exited via `break` (a 200 was seen).  When `live = false`
the loop's `else:` clause fires and prints the warning. -/
structure PollResult where
  polls : Nat
  sleeps : List Nat
  live : Bool
deriving Repr, DecidableEq

/-- The poll loop body: on a 200 the loop `break`s at once (no sleep, no
further poll); otherwise it sleeps 10 and continues. -/
def pollRun (responses : Nat → GetResult) : Nat → Nat → PollResult
  | _attempt, 0 => ⟨0, [], false⟩
  | attempt, n + 1 =>
    if isLive (responses attempt) then ⟨1, [], true⟩
    else
      let r := pollRun responses (attempt + 1) n
      ⟨r.polls + 1, 10 :: r.sleeps, r.live⟩

/-- Whether the `for ... else:` warning
`"[Warning] GitHub Pages did not respond with 200 OK after retries."`
is printed: exactly when the loop never `break`s. -/
def pagesWarned (r : PollResult) : Bool := !r.live

/-- Step 7 and the return of `create_and_push_repo`: the initial
`await asyncio.sleep(10)` settle delay, the 12-attempt poll loop, and the
unconditional `return sha, pages_url` that follows (the poll outcome never
changes the returned pair).  The earlier steps (repo creation, push,
LICENSE, README, Pages enablement) do not affect this fragment's control
flow and are not part of this definition. -/
def create_and_push_repo_step7 (responses : Nat → GetResult) (sha pages_url : String) :
    Nat × PollResult × String × String :=
  (10, pollRun responses 0 12, sha, pages_url)

/-! ## Static site generation — `services/html_generator.py` -/

/-- Outcome of the `openai_client.chat.completions.create` call as seen by
`generate_static_site`: a raised exception, or the (stripped-later) message
content string. -/
inductive AIOutcome where
  | raises (msg : String)
  | returns (content : String)
deriving Repr, DecidableEq

/-- The fragment of the working folder that `generate_static_site` touches:
the contents of `index.html` and `README.md` (absent files are
`Option.none`). -/
structure FolderState where
  index_html : Option String
  readme : Option String
deriving Repr, DecidableEq

/-- Python `str(x)` for an optional string as used inside f-strings:
`None` renders as `"None"`. -/
def pyStrOpt : Option String → String
  | some s => s
  | Option.none => "None"

/-- `re.sub(r"^```(?:html|javascript|js)?\s*\n?", "", s, flags=re.IGNORECASE)`:
removes a leading code fence, its optional language tag (matched
case-insensitively, alternatives tried in source order) and the following
whitespace.  After the greedy whitespace run the optional newline matches
nothing, so the net effect is dropping all leading whitespace. -/
def stripHeadFence (s : String) : String :=
  let cs := s.toList
  if "```".toList.isPrefixOf cs then
    let rest := cs.drop 3
    let low := lowerList rest
    let tagLen :=
      if "html".toList.isPrefixOf low then 4
      else if "javascript".toList.isPrefixOf low then 10
      else if "js".toList.isPrefixOf low then 2
      else 0
    String.mk ((rest.drop tagLen).dropWhile Char.isWhitespace)
  else s

/-- `re.sub(r"\n?```\s*$", "", s)`: removes a trailing code fence together
with the whitespace after it and one optional newline before it; when no
fence closes the string, the string is left unchanged. -/
def stripTailFence (s : String) : String :=
  let rcs := s.toList.reverse
  let rest := rcs.drop (rcs.takeWhile Char.isWhitespace).length
  if "```".toList.isPrefixOf rest then
    let rest2 := rest.drop 3
    let rest3 :=
      match rest2 with
      | '\n' :: more => more
      | _ => rest2
    String.mk rest3.reverse
  else s

/-- The structural validity check
`re.search(r"<!DOCTYPE html>|<html", ai_output, re.IGNORECASE)`. -/
def isValidHtmlOutput (s : String) : Bool :=
  containsCI s "<!DOCTYPE html>" || containsCI s "<html"

/-- The `group(1)` of `re.search(r"<script[^>]*>(.*?)</script>", s, re.DOTALL)`:
the content between the first `<script ...>` open tag and the next
`</script>`.  (The regex engine would backtrack to a later `<script` when
the first occurrence cannot complete a match; the model keys on the first
occurrence, which agrees on every document built by this program.) -/
def scriptInner (cs : List Char) : Option (List Char) :=
  match splitFirst "<script".toList cs with
  | Option.none => Option.none
  | some (_, afterOpen) =>
    match splitFirst ['>'] afterOpen with
    | Option.none => Option.none
    | some (_, afterGt) =>
      match splitFirst "</script>".toList afterGt with
      | some (inner, _) => some inner
      | Option.none => Option.none

/-- A character of the `[A-Za-z0-9_]*` identifier tail. -/
def identChar (c : Char) : Bool := c.isAlpha || c.isDigit || c = '_'

/-- `re.findall(r"function\s+([A-Za-z_][A-Za-z0-9_]*)\s*\(", js)`: the
declared function names, in order.  (The scan restarts one character after
each match start rather than after the whole match; the two agree because a
match never overlaps the text of a later one in the documents at hand.) -/
def findFunctions : List Char → List String
  | [] => []
  | c :: cs =>
    let found :=
      if "function".toList.isPrefixOf (c :: cs) then
        match (c :: cs).drop 8 with
        | r :: rtail =>
          if r.isWhitespace then
            match (r :: rtail).dropWhile Char.isWhitespace with
            | d :: ds =>
              if d.isAlpha || d = '_' then
                match (ds.dropWhile identChar).dropWhile Char.isWhitespace with
                | '(' :: _ => some (String.mk (d :: ds.takeWhile identChar))
                | _ => Option.none
              else Option.none
            | [] => Option.none
          else Option.none
        | [] => Option.none
      else Option.none
    match found with
    | some n => n :: findFunctions cs
    | Option.none => findFunctions cs

/-- `generate_readme(task, brief, round_no, html_content, is_fallback)`.
Faithful to the source's failure modes: when `html_content` contains the
literal `"<script>"` but the script regex finds no complete
`<script ...>...</script>` block, `.group(1)` on `None` raises
`AttributeError`; and in the `round_no != 1` branch `brief[:100]` raises
`TypeError` when `brief` is `None` (the caller `process_task` passes
`req.get("brief", "")`, which is `None` whenever the request omitted
`brief`, because the key is present in the pydantic dict with value
`None`).  Otherwise the full README text is produced. -/
def generate_readme (task : String) (brief : Option String) (round_no : Int)
    (html_content : String) (is_fallback : Bool) : Except String String :=
  let has_js := strContains html_content "<script>"
  let _has_css := strContains html_content "<style>"
  let scriptM := scriptInner html_content.toList
  if has_js && scriptM.isNone then
    Except.error "AttributeError"
  else
    let js_lines := if has_js then countNewlines (scriptM.getD []) else 0
    let status :=
      if is_fallback then "⚠️ Fallback Mode (AI generation failed)"
      else "✅ Successfully Generated"
    let briefStr := pyStrOpt brief
    let header := s!"# {task}\n\n## Overview\n{briefStr}\n\n**Round:** {round_no}  \n**Status:** {status}\n\n## Features\n"
    let styleEstimate := countSub "style".toList html_content.toList * 50
    let fileSize := html_content.length
    let middle := s!"\n## Technical Details\n- **HTML5** with semantic markup\n- **Inline CSS** for styling (~{styleEstimate} lines estimated)\n- **Vanilla JavaScript** for functionality (~{js_lines} lines)\n- **No external dependencies** - runs completely offline\n\n## Setup & Usage\n\n### Local Development\n1. Clone this repository\n2. Open `index.html` in any modern web browser\n3. No build process or server required\n\n### GitHub Pages Deployment\nThis project is automatically deployed via GitHub Pages and accessible at the repository\x27s GitHub Pages URL.\n\n## Code Structure\n\n```\n.\n├── index.html          # Complete application (HTML + CSS + JS)\n├── README.md          # This file\n└── LICENSE            # MIT License\n```\n\n### HTML Structure\n- **DOCTYPE & Meta Tags**: Proper HTML5 structure with UTF-8 encoding\n- **Head Section**: Contains all CSS in a single `<style>` tag\n- **Body Section**: Contains all HTML markup and JavaScript in a single `<script>` tag\n\n### JavaScript Implementation\nThe application uses vanilla JavaScript for all interactivity:\n"
    let jsSection :=
      if has_js then
        let js_content := String.mk (scriptM.getD [])
        let functions := findFunctions js_content.toList
        (if functions ≠ [] then
           "\n**Key Functions:**\n"
             ++ String.join ((functions.take 5).map
                  (fun f => s!"- `{f}()`: Core functionality handler\n"))
         else "")
          ++ (if strContains js_content "addEventListener" then
                "\n**Event Handling:**\n- Interactive elements with event listeners\n"
              else "")
          ++ (if strContains js_content "fetch" || strContains js_content "XMLHttpRequest" then
                "- API integration for external data\n"
              else "")
      else ""
    let tail := s!"\n## Browser Compatibility\n- Chrome/Edge (latest)\n- Firefox (latest)\n- Safari (latest)\n- Opera (latest)\n\n## Development Notes\n\n### Round {round_no} Changes\n{briefStr}\n\n### Future Improvements\n- Further feature enhancements based on user feedback\n- Performance optimizations\n- Additional browser compatibility testing\n\n## License\nThis project is licensed under the MIT License - see the LICENSE file for details.\n\n## Generated\n- **Round:** {round_no}\n- **Generated:** Automatically via AI\n- **File Size:** {fileSize} bytes\n"
    if round_no = 1 then
      let feat := s!"- Initial implementation of {task}\n- Self-contained HTML file with inline CSS and JavaScript\n- No external dependencies\n"
      Except.ok (header ++ feat ++ middle ++ jsSection ++ tail)
    else
      match brief with
      | Option.none => Except.error "TypeError"
      | some b =>
        let briefCut := pyTake b 100
        let feat := s!"- Enhanced version with updates from Round {round_no}\n- Maintains backward compatibility with previous functionality\n- New features as per requirements: {briefCut}...\n"
        Except.ok (header ++ feat ++ middle ++ jsSection ++ tail)

/-- The deterministic fallback `index.html` written in the `except` branch
of `generate_static_site` (Python f-string with `{task}`, `{brief}` and
`{fallback_img}` interpolated; `{brief}` renders `None` as `"None"`). -/
def fallbackHtml (task : String) (brief : Option String) (fallback_img : String) : String :=
  let briefStr := pyStrOpt brief
  s!"<!DOCTYPE html>\n<html lang=\"en\">\n<head>\n    <meta charset=\"UTF-8\">\n    <meta name=\"viewport\" content=\"width=device-width, initial-scale=1.0\">\n    <title>{task}</title>\n    <style>\n        body \x7b\n            font-family: Arial, sans-serif;\n            max-width: 800px;\n            margin: 50px auto;\n            padding: 20px;\n            background: #f5f5f5;\n        \x7d\n        .container \x7b\n            background: white;\n            padding: 30px;\n            border-radius: 8px;\n            box-shadow: 0 2px 10px rgba(0,0,0,0.1);\n        \x7d\n        h1 \x7b color: #333; \x7d\n        img \x7b max-width: 100%; height: auto; margin-top: 20px; \x7d\n    </style>\n</head>\n<body>\n    <div class=\"container\">\n        <h1>{task}</h1>\n        <p>{briefStr}</p>\n        <img src=\"{fallback_img}\" alt=\"Placeholder\" />\n    </div>\n    <script>\n        console.log(\x27Fallback mode - AI generation failed\x27);\n    </script>\n</body>\n</html>"

/-- `generate_static_site(folder, task, brief, fallback_img, round_no)`.
The OpenAI call is the oracle `ai`; `folder` holds the existing files (the
existing `index.html` only feeds the round ≥ 2 prompt, hence the oracle's
response, and does not otherwise affect control flow).  The `try` branch:
strip the AI output, raise on empty output, strip code fences, raise when
the result fails the DOCTYPE/`<html` check, write `index.html`, then build
and write the README (whose own exceptions are still inside the `try`).
The `except` branch writes the fallback page and builds the fallback
README — and any exception raised *there* (`generate_readme`'s
`TypeError` on a `None` brief with `round_no != 1`) propagates out of the
function.  Returns the final folder state, or the uncaught exception. -/
def generate_static_site (folder : FolderState) (task : String) (brief : Option String)
    (fallback_img : String) (round_no : Int) (ai : AIOutcome) : Except String FolderState :=
  let _existing_html := folder.index_html.getD ""
  let tryResult : Except String FolderState :=
    match ai with
    | AIOutcome.raises e => Except.error e
    | AIOutcome.returns content =>
      let ai_output := pyStrip content
      if ai_output = "" then Except.error "AI returned empty HTML output"
      else
        let cleaned := pyStrip (stripTailFence (stripHeadFence ai_output))
        if !isValidHtmlOutput cleaned then Except.error "AI output is not valid HTML"
        else
          match generate_readme task brief round_no cleaned false with
          | Except.ok readme => Except.ok ⟨some cleaned, some readme⟩
          | Except.error e => Except.error e
  match tryResult with
  | Except.ok st => Except.ok st
  | Except.error _e =>
    let fb := fallbackHtml task brief fallback_img
    match generate_readme task brief round_no fb true with
    | Except.ok readme => Except.ok ⟨some fb, some readme⟩
    | Except.error e => Except.error e

/-! ## Worker and task processor — `core/worker.py` -/

/-- The repository/folder name computed in `process_task`:
`f"{task_id}".replace(" ", "-").lower()`. -/
def repoName (task : String) : String :=
  (task.replace " " "-").toLower

/-- The name derivation as applied to a whole request (worker.py line 33
reads only `req["task"]`). -/
def processRepoName (req : TaskRequest) : String :=
  repoName req.task

/-- Python values as they occur in the `req.dict()` dictionary that the
intake layer enqueues (`routes.py`: `queue.put(req.dict())`). -/
inductive PyVal where
  | vstr (s : String)
  | vint (n : Int)
  | vnone
  | vstrList (xs : List String)
  | vattList (xs : List Attachment)
deriving Repr, DecidableEq

/-- `req.dict()` for a `TaskRequest`: exactly the nine declared fields of
the pydantic model, no others. -/
def TaskRequest.toDict (req : TaskRequest) : List (String × PyVal) :=
  [("email", PyVal.vstr req.email),
   ("secret", PyVal.vstr req.secret),
   ("task", PyVal.vstr req.task),
   ("round", PyVal.vint req.round),
   ("nonce", PyVal.vstr req.nonce),
   ("brief", match req.brief with | some b => PyVal.vstr b | Option.none => PyVal.vnone),
   ("checks", PyVal.vstrList req.checks),
   ("evaluation_url", PyVal.vstr req.evaluation_url),
   ("attachments", PyVal.vattList req.attachments)]

/-- Python `dict.get(key)`: the stored value when the key is present,
`None` — here `Option.none` — when it is absent. -/
def dictGet (d : List (String × PyVal)) (key : String) : Option PyVal :=
  match d with
  | [] => Option.none
  | (k, v) :: rest => if key = k then some v else dictGet rest key

/-- How an f-string renders a value obtained from `dict.get`: a missing key
gave Python `None`, which `str()` renders as `"None"`. -/
def pyFormatOpt : Option PyVal → String
  | Option.none => "None"
  | some (PyVal.vstr s) => s
  | some (PyVal.vint n) => toString n
  | some PyVal.vnone => "None"
  | some (PyVal.vstrList _) => "[...]"
  | some (PyVal.vattList _) => "[...]"

/-- The JSON body posted to `evaluation_url` (worker.py lines 56–64). -/
structure Payload where
  email : String
  task : String
  round : Int
  nonce : String
  repo_url : String
  commit_sha : Option String
  pages_url : Option String
deriving Repr, DecidableEq

/-- Payload construction from worker.py lines 56–64.  `repo_url` is
`f"https://github.com/{req.get('GITHUB_OWNER')}/{repo_name}"`, where `req`
is the enqueued `req.dict()` — which never contains a `GITHUB_OWNER` key,
`TaskRequest` having no such field. -/
def buildPayload (req : TaskRequest) (commit_sha pages_url : Option String) : Payload :=
  { email := req.email
    task := req.task
    round := req.round
    nonce := req.nonce
    repo_url := "https://github.com/"
      ++ pyFormatOpt (dictGet (TaskRequest.toDict req) "GITHUB_OWNER")
      ++ "/" ++ repoName req.task
    commit_sha := commit_sha
    pages_url := pages_url }

/-- Outcome of the `await create_and_push_repo(...)` call as observed by
`process_task`: either the call raises, or it returns a value —
`Option.none` standing for a falsy / non-tuple result (handled by
`if not result or not isinstance(result, tuple)`), `some (sha, url)` for
the normal `(commit_sha, pages_url)` tuple. -/
inductive PublishOutcome where
  | raises (msg : String)
  | returns (value : Option (String × String))
deriving Repr, DecidableEq

/-- `process_task(req, client)` (worker.py lines 27–71), modelled by the
list of notification payloads handed to `post_with_backoff` (empty = the
task was abandoned without notifying).  The collaborators are oracles:
`fetch` for attachment downloads, `ai` for the HTML-generation call,
`publish` for `create_and_push_repo`.  The entire body sits in
`try: ... except Exception: print(...)`, so the embedding is total: any
exception raised by `decode_attachments` (malformed data URI), by
`generate_static_site` (`None` brief with round ≥ 2), or by the publish
call lands in the outer handler, which only prints — no notification is
sent on that path.  A *returned* publish failure degrades to null
`commit_sha`/`pages_url` and still notifies.  `process_task` reads
`req.get("brief", "")`, but the dict key `brief` is always present
(possibly `None`), so the `""` default is dead and `generate_static_site`
receives the optional value itself; `fallback_img` is
`files[0] if files else ""`. -/
def processTask (req : TaskRequest) (fetch : String → Except String (List Nat))
    (ai : AIOutcome) (folder : FolderState) (publish : PublishOutcome) : List Payload :=
  match decode_attachments fetch req.attachments with
  | Except.error _ => []
  | Except.ok files =>
    match generate_static_site folder req.task req.brief (files.headD "") req.round ai with
    | Except.error _ => []
    | Except.ok _newFolder =>
      match publish with
      | PublishOutcome.raises _ => []
      | PublishOutcome.returns value =>
        match value with
        | Option.none => [buildPayload req Option.none Option.none]
        | some (sha, url) => [buildPayload req (some sha) (some url)]

/-- `worker_loop()` (worker.py lines 16–25), run over a finite snapshot of
the queue in FIFO order.  `step` is one dequeued task's whole processing
(`process_task`'s effect), allowed to raise; the loop's
`try ... except Exception as e: print(...)` turns a raised exception into
a logged entry and continues.  The result is the processing log, in order:
each dequeued request paired with whether its exception was caught.  The
codomain is a plain `List` — not `Except` — because no exception leaves
the loop. -/
def worker_loop (step : TaskRequest → Except String (List Payload)) :
    List TaskRequest → List (TaskRequest × Bool)
  | [] => []
  | req :: rest =>
    (match step req with
     | Except.ok _ => (req, false)
     | Except.error _ => (req, true)) :: worker_loop step rest

/-! ## Helper lemmas -/

/-- When every attempt fails, the retry loop runs to exhaustion: it makes
one POST per remaining iteration and sleeps the doubling-capped schedule. -/
lemma backoffRun_all_fail (responses : Nat → PostResult) :
    ∀ (n attempt delay : Nat),
      (∀ k, k < n → isOk200 (responses (attempt + k)) = false) →
      backoffRun responses attempt n delay = (n, sleepSeq n delay) := by
  intro n
  induction n with
  | zero => intro attempt delay _h; rfl
  | succ n ih =>
    intro attempt delay h
    have h0 : isOk200 (responses attempt) = false := by simpa using h 0 (Nat.succ_pos n)
    have hrest : ∀ k, k < n → isOk200 (responses (attempt + 1 + k)) = false := by
      intro k hk
      rw [show attempt + 1 + k = attempt + (k + 1) by omega]
      exact h (k + 1) (by omega)
    simp [backoffRun, h0, ih (attempt + 1) (nextDelay delay) hrest, sleepSeq]

/-- When the `m`-th attempt (0-based, `m < n`) is the first success, the
retry loop returns right after it: `m + 1` POSTs and `m` sleeps. -/
lemma backoffRun_first_success (responses : Nat → PostResult) :
    ∀ (n m attempt delay : Nat), m < n →
      (∀ k, k < m → isOk200 (responses (attempt + k)) = false) →
      isOk200 (responses (attempt + m)) = true →
      backoffRun responses attempt n delay = (m + 1, sleepSeq m delay) := by
  intro n
  induction n with
  | zero => intro m attempt delay hm; exact absurd hm (Nat.not_lt_zero m)
  | succ n ih =>
    intro m attempt delay hm h hs
    cases m with
    | zero =>
      have h0 : isOk200 (responses attempt) = true := by simpa using hs
      simp [backoffRun, h0, sleepSeq]
    | succ m =>
      have h0 : isOk200 (responses attempt) = false := by simpa using h 0 (Nat.succ_pos m)
      have hrest : ∀ k, k < m → isOk200 (responses (attempt + 1 + k)) = false := by
        intro k hk
        rw [show attempt + 1 + k = attempt + (k + 1) by omega]
        exact h (k + 1) (by omega)
      have hs' : isOk200 (responses (attempt + 1 + m)) = true := by
        rw [show attempt + 1 + m = attempt + (m + 1) by omega]; exact hs
      have hrec := ih m (attempt + 1) (nextDelay delay) (by omega) hrest hs'
      simp [backoffRun, h0, hrec, sleepSeq]

/-- The sleep schedule has one entry per failed attempt. -/
lemma sleepSeq_length : ∀ (n d : Nat), (sleepSeq n d).length = n := by
  intro n
  induction n with
  | zero => intro d; rfl
  | succ n ih => intro d; simp [sleepSeq, ih]

/-- When no poll sees a 200, the loop makes all `n` polls, sleeps 10 after
each, and exits without `break` (so the warning fires). -/
lemma pollRun_all_fail (responses : Nat → GetResult) :
    ∀ (n attempt : Nat),
      (∀ k, k < n → isLive (responses (attempt + k)) = false) →
      pollRun responses attempt n = ⟨n, List.replicate n 10, false⟩ := by
  intro n
  induction n with
  | zero => intro attempt _h; rfl
  | succ n ih =>
    intro attempt h
    have h0 : isLive (responses attempt) = false := by simpa using h 0 (Nat.succ_pos n)
    have hrest : ∀ k, k < n → isLive (responses (attempt + 1 + k)) = false := by
      intro k hk
      rw [show attempt + 1 + k = attempt + (k + 1) by omega]
      exact h (k + 1) (by omega)
    simp [pollRun, h0, ih (attempt + 1) hrest, List.replicate]

/-- When the `m`-th poll (0-based, `m < n`) is the first 200, the loop
`break`s there: `m + 1` polls, `m` sleeps, no later poll. -/
lemma pollRun_first_success (responses : Nat → GetResult) :
    ∀ (n m attempt : Nat), m < n →
      (∀ k, k < m → isLive (responses (attempt + k)) = false) →
      isLive (responses (attempt + m)) = true →
      pollRun responses attempt n = ⟨m + 1, List.replicate m 10, true⟩ := by
  intro n
  induction n with
  | zero => intro m attempt hm; exact absurd hm (Nat.not_lt_zero m)
  | succ n ih =>
    intro m attempt hm h hs
    cases m with
    | zero =>
      have h0 : isLive (responses attempt) = true := by simpa using hs
      simp [pollRun, h0]
    | succ m =>
      have h0 : isLive (responses attempt) = false := by simpa using h 0 (Nat.succ_pos m)
      have hrest : ∀ k, k < m → isLive (responses (attempt + 1 + k)) = false := by
        intro k hk
        rw [show attempt + 1 + k = attempt + (k + 1) by omega]
        exact h (k + 1) (by omega)
      have hs' : isLive (responses (attempt + 1 + m)) = true := by
        rw [show attempt + 1 + m = attempt + (m + 1) by omega]; exact hs
      have hrec := ih m (attempt + 1) (by omega) hrest hs'
      simp [pollRun, h0, hrec, List.replicate]

/-- The worker loop processes exactly the enqueued requests, in order. -/
lemma worker_loop_map_fst (step : TaskRequest → Except String (List Payload)) :
    ∀ (queued : List TaskRequest), (worker_loop step queued).map Prod.fst = queued := by
  intro queued
  induction queued with
  | nil => rfl
  | cons req rest ih =>
    cases hr : step req <;> simp [worker_loop, hr, ih]

/-- The worker loop treats a concatenation of queue segments segment by
segment. -/
lemma worker_loop_append (step : TaskRequest → Except String (List Payload)) :
    ∀ (q₁ q₂ : List TaskRequest),
      worker_loop step (q₁ ++ q₂) = worker_loop step q₁ ++ worker_loop step q₂ := by
  intro q₁ q₂
  induction q₁ with
  | nil => rfl
  | cons r rest ih => simp [worker_loop, ih]

set_option maxHeartbeats 1600000 in
/-- When every data-URI attachment decodes, `decode_attachments` returns
normally, and the returned names are exactly those of the attachments that
were kept (data URIs, and remote urls whose fetch succeeded). -/
lemma decode_attachments_ok (fetch : String → Except String (List Nat)) :
    ∀ (atts : List Attachment), atts.all dataUriOk = true →
      decode_attachments fetch atts
        = Except.ok ((atts.filter (attachmentKept fetch)).map Attachment.name) := by
  intro atts
  induction atts with
  | nil => intro _h; rfl
  | cons a rest ih =>
    intro h
    rw [List.all_cons, Bool.and_eq_true] at h
    cases hd : dataUriPayload a.url with
    | some d =>
      have hb : (b64decode d).isSome = true := by
        have h1 := h.1
        unfold dataUriOk at h1
        rw [hd] at h1
        exact h1
      have hk : attachmentKept fetch a = true := by
        unfold attachmentKept
        rw [hd]
      cases hbv : b64decode d with
      | none => rw [hbv] at hb; simp at hb
      | some bytes =>
        rw [decode_attachments]
        rw [hd]
        dsimp only
        rw [hbv]
        dsimp only
        rw [ih h.2, List.filter_cons, hk]
        rfl
    | none =>
      cases hf : fetch a.url with
      | ok content =>
        have hk : attachmentKept fetch a = true := by
          unfold attachmentKept
          rw [hd, hf]
        rw [decode_attachments]
        rw [hd]
        dsimp only
        rw [hf]
        dsimp only
        rw [ih h.2, List.filter_cons, hk]
        rfl
      | error e =>
        have hk : attachmentKept fetch a = false := by
          unfold attachmentKept
          rw [hd, hf]
        rw [decode_attachments]
        rw [hd]
        dsimp only
        rw [hf]
        dsimp only
        rw [ih h.2, List.filter_cons, hk]
        rfl

/-! ## Claim theorems -/

set_option maxRecDepth 4000 in
/-- C1: the claim says that when `create_and_push_repo` raises an
unexpected exception (rather than returning a structured failure), the
Task Processor still posts a notification to `evaluation_url` with
`commit_sha` and `pages_url` null.  Evaluating the code at such an input
shows the opposite: the exception lands in `process_task`'s outer
`except`, which only prints, and no notification is posted at all
(`processTask` hands no payload to the notifier).  The structured-failure
path (`PublishOutcome.returns Option.none`) does notify with nulls; the
raising path does not. -/
theorem c1_publish_exception_drops_notification :
    processTask
        ⟨"student@example.com", "s3cret", "demo app", 1, "nonce-1", Option.none, [],
          "https://eval.example.com/notify", []⟩
        (fun _ => Except.ok []) (AIOutcome.returns "<html></html>")
        ⟨Option.none, Option.none⟩ (PublishOutcome.raises "httpx.RequestError") = [] := by
  rfl

/-- C2: an exception raised out of a single task's processing is caught at
the worker-loop level and the loop continues: with any queue
`q₁ ++ r :: q₂` and a step that raises on `r`, the loop still processes
all of `q₁`, records `r` as a caught failure, and processes all of `q₂`;
the loop's codomain is a plain list, so no exception propagates out. -/
theorem c2_worker_loop_survives_task_failure
    (step : TaskRequest → Except String (List Payload))
    (q₁ : List TaskRequest) (r : TaskRequest) (e : String) (q₂ : List TaskRequest)
    (h : step r = Except.error e) :
    worker_loop step (q₁ ++ r :: q₂)
        = worker_loop step q₁ ++ (r, true) :: worker_loop step q₂ ∧
      (worker_loop step (q₁ ++ r :: q₂)).map Prod.fst = q₁ ++ r :: q₂ := by
  constructor
  · rw [worker_loop_append step q₁ (r :: q₂)]
    simp [worker_loop, h]
  · exact worker_loop_map_fst step (q₁ ++ r :: q₂)

/-- A request whose only varying field is `task`, for concrete worker-loop
and naming scenarios. -/
def mkReq (task : String) : TaskRequest :=
  ⟨"student@example.com", "s3cret", task, 1, "nonce", Option.none, [],
   "https://eval.example.com/notify", []⟩

/-- A processing step that raises exactly on the task named `bad`. -/
def failingStep : TaskRequest → Except String (List Payload) :=
  fun req => if req.task = "bad" then Except.error "boom" else Except.ok []

/-- Witness for C2 at a concrete queue: the raising task is logged as
caught and the two tasks enqueued after it are still processed. -/
theorem c2_witness :
    worker_loop failingStep ([mkReq "a"] ++ mkReq "bad" :: [mkReq "c", mkReq "d"])
        = worker_loop failingStep [mkReq "a"]
          ++ (mkReq "bad", true) :: worker_loop failingStep [mkReq "c", mkReq "d"] ∧
      (worker_loop failingStep
          ([mkReq "a"] ++ mkReq "bad" :: [mkReq "c", mkReq "d"])).map Prod.fst
        = [mkReq "a"] ++ mkReq "bad" :: [mkReq "c", mkReq "d"] :=
  c2_worker_loop_survives_task_failure failingStep [mkReq "a"] (mkReq "bad") "boom"
    [mkReq "c", mkReq "d"] (by rfl)

/-- C3: tasks are processed strictly in enqueue (FIFO) order by the single
consumer: the worker loop's processing log lists exactly the enqueued
requests in enqueue order (each entry fully resolved — `Except` consumed —
before the next is produced), for every queue and every step behaviour. -/
theorem c3_fifo_processing_order (step : TaskRequest → Except String (List Payload))
    (queued : List TaskRequest) :
    (worker_loop step queued).map Prod.fst = queued :=
  worker_loop_map_fst step queued

/-- C4: against a URL whose every response fails (non-200 status or
transport error), `post_with_backoff` with the default `max_attempts = 20`
makes exactly 20 POSTs and returns (totally) with the sleep schedule
`1, 2, 4, 8, 16, 16, ...`; in particular the inter-attempt delays (the
first 19 sleeps, each separating two consecutive POSTs) are
`1, 2, 4, 8` then fifteen `16`s — doubling, capped at 16. -/
theorem c4_backoff_exhausts_all_attempts (responses : Nat → PostResult)
    (h : ∀ k, k < 20 → isOk200 (responses k) = false) :
    post_with_backoff responses 20 = (20, [1, 2, 4, 8] ++ List.replicate 16 16) ∧
      List.take 19 (post_with_backoff responses 20).2
        = [1, 2, 4, 8] ++ List.replicate 15 16 := by
  have h0 : ∀ k, k < 20 → isOk200 (responses (0 + k)) = false := by
    intro k hk; simpa using h k hk
  have hrun := backoffRun_all_fail responses 20 0 1 h0
  have hseq : sleepSeq 20 1 = [1, 2, 4, 8] ++ List.replicate 16 16 := by decide
  constructor
  · simp only [post_with_backoff]
    rw [hrun, hseq]
  · simp only [post_with_backoff]
    rw [hrun, hseq]
    decide

/-- Witness for C4: a transport-erroring endpoint exhausts all 20 attempts
with the capped doubling schedule. -/
theorem c4_witness :
    (∀ k, k < 20 → isOk200 ((fun _ => PostResult.exn "ConnectError") k) = false) ∧
      post_with_backoff (fun _ => PostResult.exn "ConnectError") 20
        = (20, [1, 2, 4, 8] ++ List.replicate 16 16) :=
  ⟨fun _ _ => rfl,
    (c4_backoff_exhausts_all_attempts (fun _ => PostResult.exn "ConnectError")
      (fun _ _ => rfl)).1⟩

/-- C5: success for the notifier is exactly an HTTP 200 response (any
other status, and any transport error, is a failed attempt), and when the
`N`-th POST is the first to return 200 (`1 ≤ N ≤ max_attempts = 20`),
exactly `N` POSTs are made and the function returns immediately after the
`N`-th: only the `N - 1` inter-attempt sleeps happened, none after the
success. -/
theorem c5_backoff_stops_on_first_success :
    (∀ s, isOk200 (PostResult.ok s) = true ↔ s = 200) ∧
      (∀ m, isOk200 (PostResult.exn m) = false) ∧
      ∀ (responses : Nat → PostResult) (N : Nat), 1 ≤ N → N ≤ 20 →
        isOk200 (responses (N - 1)) = true →
        (∀ k, k < N - 1 → isOk200 (responses k) = false) →
        post_with_backoff responses 20 = (N, sleepSeq (N - 1) 1) ∧
          (post_with_backoff responses 20).2.length = N - 1 := by
  refine ⟨?_, ?_, ?_⟩
  · intro s
    simp [isOk200]
  · intro m
    rfl
  · intro responses N h1 h2 hs hf
    have h0 : ∀ k, k < N - 1 → isOk200 (responses (0 + k)) = false := by
      intro k hk; simpa using hf k hk
    have hs0 : isOk200 (responses (0 + (N - 1))) = true := by simpa using hs
    have hrun := backoffRun_first_success responses 20 (N - 1) 0 1 (by omega) h0 hs0
    rw [show N - 1 + 1 = N by omega] at hrun
    constructor
    · simp only [post_with_backoff]
      exact hrun
    · simp only [post_with_backoff]
      rw [hrun]
      exact sleepSeq_length (N - 1) 1

/-- An endpoint that fails with a 500 twice, then returns 200 on the third
POST. -/
def c5Responses : Nat → PostResult :=
  fun k => if k = 2 then PostResult.ok 200 else PostResult.ok 500

/-- Witness for C5 at `N = 3`: exactly 3 POSTs and 2 sleeps. -/
theorem c5_witness :
    (1 ≤ 3 ∧ 3 ≤ 20 ∧ isOk200 (c5Responses 2) = true ∧
        (∀ k, k < 2 → isOk200 (c5Responses k) = false)) ∧
      post_with_backoff c5Responses 20 = (3, [1, 2]) :=
  ⟨⟨by decide, by decide, by decide, by decide⟩,
    ((c5_backoff_stops_on_first_success.2.2 c5Responses 3 (by decide) (by decide)
        (by decide) (by decide)).1).trans (by decide)⟩

/-- C6: the hosting-liveness poller waits a 10-unit settle delay, then
polls up to 12 times at 10-unit intervals.  When every poll fails it makes
all 12 polls, the total wait is `10 + 12·10 = 130`, only the `for`-`else`
warning fires, and the publish step still returns `(sha, pages_url)`
unchanged.  When poll `N` (0-based, `N < 12`) is the first 200, exactly
`N + 1` polls are made — success on poll 5 means no poll 6 — and the same
pair is returned. -/
theorem c6_pages_liveness_poller :
    (∀ (responses : Nat → GetResult) (sha url : String),
        (∀ k, k < 12 → isLive (responses k) = false) →
        create_and_push_repo_step7 responses sha url
            = (10, ⟨12, List.replicate 12 10, false⟩, sha, url) ∧
          10 + (List.replicate 12 10).sum = 130 ∧
          pagesWarned ⟨12, List.replicate 12 10, false⟩ = true) ∧
      ∀ (responses : Nat → GetResult) (sha url : String) (N : Nat), N < 12 →
        (∀ k, k < N → isLive (responses k) = false) →
        isLive (responses N) = true →
        create_and_push_repo_step7 responses sha url
          = (10, ⟨N + 1, List.replicate N 10, true⟩, sha, url) := by
  constructor
  · intro responses sha url h
    have h0 : ∀ k, k < 12 → isLive (responses (0 + k)) = false := by
      intro k hk; simpa using h k hk
    refine ⟨?_, by decide, by decide⟩
    simp only [create_and_push_repo_step7]
    rw [pollRun_all_fail responses 12 0 h0]
  · intro responses sha url N hN h hs
    have h0 : ∀ k, k < N → isLive (responses (0 + k)) = false := by
      intro k hk; simpa using h k hk
    have hs0 : isLive (responses (0 + N)) = true := by simpa using hs
    simp only [create_and_push_repo_step7]
    rw [pollRun_first_success responses 12 N 0 hN h0 hs0]

/-- A pages URL that never serves 200. -/
def c6AllFail : Nat → GetResult := fun _ => GetResult.ok 404

/-- A pages URL that errors until the 5th poll (index 4), which gets 200. -/
def c6FifthLive : Nat → GetResult :=
  fun k => if k = 4 then GetResult.ok 200 else GetResult.exn "ConnectTimeout"

/-- Witness for C6: all-fail → 12 polls and warning; first 200 on poll 5 →
exactly 5 polls, no poll 6. -/
theorem c6_witness :
    create_and_push_repo_step7 c6AllFail "sha0" "https://owner.github.io/repo/"
        = (10, ⟨12, List.replicate 12 10, false⟩, "sha0", "https://owner.github.io/repo/") ∧
      create_and_push_repo_step7 c6FifthLive "sha0" "https://owner.github.io/repo/"
        = (10, ⟨5, List.replicate 4 10, true⟩, "sha0", "https://owner.github.io/repo/") :=
  ⟨(c6_pages_liveness_poller.1 c6AllFail "sha0" "https://owner.github.io/repo/"
      (by decide)).1,
    c6_pages_liveness_poller.2 c6FifthLive "sha0" "https://owner.github.io/repo/" 4
      (by decide) (by decide) (by decide)⟩

/-- C7: the derived repository/folder name is a deterministic pure
function of the `task` string only — spaces replaced by hyphens, then
lower-cased — so two requests with the same `task` map to the same name
regardless of round, attachments, or any other field. -/
theorem c7_repo_name_deterministic (r1 r2 : TaskRequest) (h : r1.task = r2.task) :
    processRepoName r1 = processRepoName r2 ∧
      processRepoName r1 = (r1.task.replace " " "-").toLower := by
  constructor
  · simp [processRepoName, repoName, h]
  · rfl

/-- A round-1 request for task `My Landing Page` with no attachments. -/
def c7ReqA : TaskRequest :=
  ⟨"a@x.com", "s", "My Landing Page", 1, "n1", Option.none, [], "https://cb/a", []⟩

/-- A round-2 request for the same `task` differing in every other field. -/
def c7ReqB : TaskRequest :=
  ⟨"b@y.org", "s2", "My Landing Page", 2, "n2", some "restyle it", ["check1"],
   "https://cb/b", [⟨"img.png", "https://img.example.com/i.png"⟩]⟩

/-- Witness for C7: the two requests share `task` and get the same name. -/
theorem c7_witness :
    c7ReqA.task = c7ReqB.task ∧
      (processRepoName c7ReqA = processRepoName c7ReqB ∧
        processRepoName c7ReqA = (c7ReqA.task.replace " " "-").toLower) :=
  ⟨rfl, c7_repo_name_deterministic c7ReqA c7ReqB rfl⟩

set_option maxRecDepth 4000 in
/-- C8 counterexample: the claim says `decode_attachments` never raises
and skips a malformed base64 data URI.  In the code the data-URI branch is
outside the `try`, so `base64.b64decode` raising on the payload `"A"`
(one character: incorrect padding) propagates out of the call — the result
is an exception, not a name list with the item omitted. -/
theorem c8_malformed_data_uri_raises :
    decode_attachments (fun _ => Except.ok []) [⟨"a.txt", "data:text/plain;base64,A"⟩]
      = Except.error "binascii.Error: Invalid base64-encoded string" := by
  rfl

/-- C8 (amended): per-attachment failure tolerance holds only for the
remote-fetch branch: when every data-URI attachment decodes,
`decode_attachments` returns normally and its result lists exactly the
names of the kept attachments — data URIs, plus remote urls whose fetch
succeeded; a failed remote fetch is skipped (omitted, not fatal).  A
malformed base64 data URI instead raises out of the call
(`c8_malformed_data_uri_raises`). -/
theorem c8_remote_fetch_failures_skipped (atts : List Attachment)
    (fetch : String → Except String (List Nat)) (h : atts.all dataUriOk = true) :
    decode_attachments fetch atts
      = Except.ok ((atts.filter (attachmentKept fetch)).map Attachment.name) :=
  decode_attachments_ok fetch atts h

/-- A well-formed data URI, a remote url whose fetch 404s, and a remote
url whose fetch succeeds. -/
def c8Atts : List Attachment :=
  [⟨"img.png", "data:image/png;base64,aGVsbG8="⟩,
   ⟨"a.bin", "http://files.example.com/a"⟩,
   ⟨"b.bin", "http://files.example.com/b"⟩]

/-- A fetch oracle failing exactly on the first remote url. -/
def c8Fetch : String → Except String (List Nat) :=
  fun u => if u = "http://files.example.com/a" then Except.error "HTTPStatusError: 404"
           else Except.ok [0]

set_option maxRecDepth 4000 in
/-- Witness for C8's amended theorem: the failing fetch is skipped, the
other two attachments are returned. -/
theorem c8_witness :
    (c8Atts.all dataUriOk = true) ∧
      decode_attachments c8Fetch c8Atts = Except.ok ["img.png", "b.bin"] :=
  ⟨by decide, (c8_remote_fetch_failures_skipped c8Atts c8Fetch (by decide)).trans (by rfl)⟩

set_option maxRecDepth 4000 in
/-- C9: the claim says `generate_static_site` never raises and always
leaves a publishable fallback artifact.  Evaluating the code at a request
with `brief` omitted (`None`, as the worker's `req.get("brief", "")` still
passes, the key being present) and `round = 2` shows it raising:
`generate_readme` evaluates `brief[:100]` in the round ≥ 2 branch, so the
`TypeError` fires inside the fallback path itself and propagates out of
`generate_static_site`, leaving no fallback README behind. -/
theorem c9_none_brief_round2_raises :
    generate_static_site ⟨Option.none, Option.none⟩ "demo app" Option.none "" 2
      (AIOutcome.raises "openai.APIError") = Except.error "TypeError" := by
  rfl

set_option maxRecDepth 4000 in
/-- C10: for every task reaching the notification step, the payload's
`repo_url` is the constant pattern `https://github.com/None/<repo_name>`:
the code reads the owner via `req.get('GITHUB_OWNER')` from the enqueued
request dictionary, `TaskRequest` declares no such field, so the lookup
yields `None` for every request and the f-string renders it as the literal
`None`, independent of process configuration. -/
theorem c10_repo_url_owner_is_none (req : TaskRequest) (commit_sha pages_url : Option String) :
    (buildPayload req commit_sha pages_url).repo_url
      = "https://github.com/None/" ++ repoName req.task := by
  rfl

end Spec2Proof
